import Mathlib

/-!
Verification of the agent registration and data-ingestion gateway
(`agent_receiver/server.py` and `agent_receiver/checkmk_rest_api.py`).

The gateway is embedded shallowly:

* HTTP responses of the authority-of-record (`requests.Response`) become the
  structure `RestApiResponse` carrying the status code, the raw text body and
  the JSON-parsed body.
* The filesystem-backed registry becomes the structure `FS`:
  the symlink tree `<agent-output-dir>/<uuid> -> <data-source-dir>/<host_name>`
  is an association list from uuid to host name (uuids and host names are
  treated as opaque keys, i.e. single, nonempty path components, so that
  `Path(target).name` recovers exactly the stored host name), the set of uuids
  whose output directory resolves to an existing directory, the payload file
  `received-output` per uuid, and the two lifecycle-artifact directories
  `READY` (keyed by uuid) and `DISCOVERABLE` (keyed by host name).
* Endpoints become pure functions from the pre-state and the external
  responses to the post-state and an `Except` result; an uncaught Python
  exception is an explicit error constructor.
* The temp-file-then-rename persistence sequence of `agent_data` is
  additionally modelled at step granularity (`uploadAfter`) so that
  interruption before the rename can be expressed.
-/

namespace AgentReceiver

/-- A response from the authority-of-record as seen through `requests`:
`status_code`, the raw `text` body, and the JSON-parsed body (`.json()`),
modelled as an association list of string fields. -/
structure RestApiResponse where
  status_code : Nat
  text : String
  jsonBody : List (String × String)
deriving Repr, DecidableEq

/-- `requests.Response.ok`: the response is a success iff its status code is
below 400. -/
def RestApiResponse.ok (r : RestApiResponse) : Bool :=
  r.status_code < 400

/-- `host_exists` (checkmk_rest_api.py, lines 56-63): forwards a GET for
`objects/host_config/<host_name>` and compares the authority's status code
with `HTTPStatus.OK` (200).  The outbound call is abstracted by passing the
authority's response. -/
def host_exists (lookupResp : RestApiResponse) : Bool :=
  lookupResp.status_code == 200

/-- The gateway's own `/pairing` response: either the JSON body returned to
the framework (rendered with the endpoint's default success status), or the
`HTTPException` raised with a status code and a detail string. -/
inductive PairingResult
  | success (body : List (String × String))
  | failure (status_code : Nat) (detail : String)
deriving Repr, DecidableEq

/-- `pairing` (server.py, lines 40-65): forwards the CSR via `post_csr`; if
the authority's response `.ok` holds, returns its `.json()` body, otherwise
raises `HTTPException` with the authority's status code and `.text`. -/
def pairing (rest_api_csr_resp : RestApiResponse) : PairingResult :=
  if rest_api_csr_resp.ok then
    PairingResult.success rest_api_csr_resp.jsonBody
  else
    PairingResult.failure rest_api_csr_resp.status_code rest_api_csr_resp.text

/-- HTTP status carried by the gateway's pairing response: FastAPI renders a
plain return value of the `@app.post("/pairing")` endpoint with the default
status 200; a raised `HTTPException` carries its own status code. -/
def PairingResult.statusCode : PairingResult → Nat
  | PairingResult.success _ => 200
  | PairingResult.failure c _ => c

/-- The filesystem-backed registry state used by the endpoints. -/
structure FS where
  /-- symlinks `<agent-output-dir>/<uuid> -> <data-source-dir>/<host_name>`,
  as a uuid-to-host-name association list -/
  links : List (String × String)
  /-- uuids whose output directory `<agent-output-dir>/<uuid>` resolves to an
  existing directory (so `mkstemp(dir=...)` succeeds there) -/
  dirExists : List String
  /-- contents of `<agent-output-dir>/<uuid>/received-output` per uuid -/
  payloads : List (String × String)
  /-- uuids `u` such that `registration-requests/READY/<u>.json` exists -/
  ready : List String
  /-- host names `h` such that
  `registration-requests/DISCOVERABLE/<h>.json` exists -/
  discoverable : List String
deriving Repr, DecidableEq

/-- Errors of the registration endpoint: a raised `HTTPException`, or the
uncaught `FileExistsError` propagating out of `Path.symlink_to`. -/
inductive RegisterError
  | httpException (status_code : Nat) (detail : String)
  | fileExistsError
deriving Repr, DecidableEq

/-- `_create_link` (server.py, lines 73-80): `(source_dir / uuid).symlink_to
(target_dir / host_name)`.  `symlink_to` creates a fresh symlink and raises
`FileExistsError` when a filesystem entry already exists at the link path. -/
def create_link (fs : FS) (uuid host_name : String) : Except RegisterError FS :=
  match fs.links.lookup uuid with
  | some _ => Except.error RegisterError.fileExistsError
  | none => Except.ok { fs with links := (uuid, host_name) :: fs.links }

/-- `register_with_hostname` (server.py, lines 87-111): raises a 404
`HTTPException` naming the host unless `host_exists` confirms it, otherwise
calls `_create_link` and returns `HTTP_204_NO_CONTENT`. -/
def register_with_hostname (hostLookupResp : RestApiResponse) (fs : FS)
    (uuid host_name : String) : Except RegisterError (FS × Nat) :=
  if !host_exists hostLookupResp then
    Except.error (RegisterError.httpException 404
      ("Host " ++ host_name ++ " does not exist"))
  else
    match create_link fs uuid host_name with
    | Except.error e => Except.error e
    | Except.ok fs1 => Except.ok (fs1, 204)

/-- `get_hostname` (server.py, lines 114-122): `os.readlink` on
`<agent-output-dir>/<uuid>`; a `FileNotFoundError` (no link) is caught and
yields `None`, otherwise `Path(target_path).name` recovers the host name
(opaque-key abstraction: the target is `<data-source-dir>/<host_name>`, so
its final component is the stored host name, and it is nonempty). -/
def get_hostname (fs : FS) (uuid : String) : Option String :=
  fs.links.lookup uuid

/-- Replacement of the payload file for `uuid` (the net effect of the
temp-file write followed by `os.rename` over `received-output`). -/
def setPayload (payloads : List (String × String)) (uuid payload : String) :
    List (String × String) :=
  (uuid, payload) :: payloads.filter (fun p => !(p.1 == uuid))

/-- `agent_data` (server.py, lines 125-160).  If the output directory for
`uuid` is missing, `mkstemp` raises `FileNotFoundError` and the endpoint
raises `HTTPException(403, "Host is not registered")` with the state
untouched.  Otherwise the payload replaces `received-output`; then, if
`READY/<uuid>.json` exists and `get_hostname` is truthy (when a link exists
the resolved name is nonempty, so truthiness is `isSome`), the artifact is
moved to `DISCOVERABLE/<hostname>.json` — unless that `shutil.move` loses a
race and raises `FileNotFoundError` (`moveRace`), which is caught and only
logged.  The endpoint then returns the success message. -/
def agent_data (fs : FS) (uuid payload : String) (moveRace : Bool) :
    Except (Nat × String) String × FS :=
  if uuid ∈ fs.dirExists then
    let fs1 : FS := { fs with payloads := setPayload fs.payloads uuid payload }
    let hostname := get_hostname fs1 uuid
    let fs2 : FS :=
      if uuid ∈ fs1.ready ∧ hostname.isSome then
        if moveRace then fs1
        else
          { fs1 with
              ready := fs1.ready.filter (fun v => !(v == uuid)),
              discoverable := fs1.discoverable.insert (hostname.getD "") }
      else fs1
    (Except.ok "Agent data saved.", fs2)
  else
    (Except.error (403, "Host is not registered"), fs)

/-- Local persistence state of one `agent_data` call: whether the resolved
output directory exists, the contents of the destination `received-output`
(if present), and the contents of the `mkstemp` temporary file (if present). -/
structure UploadState where
  dirExists : Bool
  dest : Option String
  temp : Option String
deriving Repr, DecidableEq

/-- `mkstemp(dir=file_dir)` (server.py, line 131): raises `FileNotFoundError`
when the directory is missing; otherwise creates a fresh, empty temporary
file inside that same directory. -/
def up_mkstemp (s : UploadState) : Option UploadState :=
  if s.dirExists then some { s with temp := some "" } else none

/-- `shutil.copyfileobj(upload_file.file, temp_file)` (server.py, line 133):
the full payload is written to the open temporary file. -/
def up_write (payload : String) (s : UploadState) : UploadState :=
  { s with temp := some payload }

/-- `os.rename(temp_path, file_path)` (server.py, line 135): in one step the
temporary file replaces the destination. -/
def up_rename (s : UploadState) : UploadState :=
  { s with dest := s.temp, temp := none }

/-- The persistence sequence of `agent_data`, stopped after `k` completed
steps: `k = 0` before `mkstemp`, `k = 1` after `mkstemp`, `k = 2` after the
payload write but before the rename, `k ≥ 3` after the rename.  When
`mkstemp` raises `FileNotFoundError` nothing has been created. -/
def uploadAfter (s0 : UploadState) (payload : String) (k : Nat) : UploadState :=
  if k = 0 then s0
  else
    match up_mkstemp s0 with
    | none => s0
    | some s1 =>
      if k = 1 then s1
      else
        let s2 := up_write payload s1
        if k = 2 then s2 else up_rename s2

/-- Whether a registration outcome is a structured HTTP conflict (409)
response. -/
def isConflictResponse : Except RegisterError (FS × Nat) → Bool
  | Except.error (RegisterError.httpException 409 _) => true
  | _ => false

/-- C9: `host_exists` returns true if and only if the authority's lookup
response has HTTP status OK (200); any other status yields false. -/
theorem host_exists_iff_status_ok (r : RestApiResponse) :
    host_exists r = true ↔ r.status_code = 200 := by
  simp [host_exists]

theorem host_exists_iff_status_ok_witness :
    host_exists ⟨200, "", []⟩ = true ∧ host_exists ⟨401, "denied", []⟩ = false :=
  ⟨(host_exists_iff_status_ok ⟨200, "", []⟩).mpr rfl, by
    have h := host_exists_iff_status_ok ⟨401, "denied", []⟩
    simp at h
    simpa using h⟩

/-- C10: the pairing endpoint treats the authority's response as a success
exactly when its status code is below 400 (`requests`' `ok` predicate): for
any status below 400 it returns the JSON-parsed body with the gateway's
default success status 200, and it raises an `HTTPException` carrying the
authority's status and text exactly when the status is at least 400. -/
theorem pairing_ok_threshold (r : RestApiResponse) :
    (r.status_code < 400 →
      pairing r = PairingResult.success r.jsonBody ∧
      (pairing r).statusCode = 200) ∧
    (400 ≤ r.status_code →
      pairing r = PairingResult.failure r.status_code r.text ∧
      (pairing r).statusCode = r.status_code) := by
  constructor
  · intro h
    simp [pairing, RestApiResponse.ok, h, PairingResult.statusCode]
  · intro h
    have h' : ¬r.status_code < 400 := not_lt.mpr h
    simp [pairing, RestApiResponse.ok, h', PairingResult.statusCode]

theorem pairing_ok_threshold_witness :
    pairing ⟨303, "see other", [("k", "v")]⟩
      = PairingResult.success [("k", "v")] ∧
    pairing ⟨401, "denied", []⟩ = PairingResult.failure 401 "denied" :=
  ⟨((pairing_ok_threshold ⟨303, "see other", [("k", "v")]⟩).1 (by decide)).1,
   ((pairing_ok_threshold ⟨401, "denied", []⟩).2 (by decide)).1⟩

/-- C2 counterexample: for an authority success response with status 201, the
gateway's pairing response carries status 200 (the endpoint's default), not
the authority's 201 — so the pairing response does not carry the authority's
status code on every outcome. -/
theorem pairing_status_not_always_authoritys :
    (pairing ⟨201, "created", [("cert", "c")]⟩).statusCode ≠ 201 := by
  decide

/-- C2 (amended): the pairing response always carries the authority's body
(the JSON-parsed body on success, the raw text as the error detail on
failure), and it carries the authority's status code exactly on failure
(`ok` false); on success the status is the gateway's fixed default 200. -/
theorem pairing_forwards_authority (r : RestApiResponse) :
    (r.ok = true →
      pairing r = PairingResult.success r.jsonBody ∧
      (pairing r).statusCode = 200) ∧
    (r.ok = false →
      pairing r = PairingResult.failure r.status_code r.text ∧
      (pairing r).statusCode = r.status_code) := by
  constructor
  · intro h
    simp [pairing, h, PairingResult.statusCode]
  · intro h
    simp [pairing, h, PairingResult.statusCode]

theorem pairing_forwards_authority_witness :
    pairing ⟨201, "created", [("cert", "c")]⟩
      = PairingResult.success [("cert", "c")] ∧
    pairing ⟨403, "forbidden", []⟩ = PairingResult.failure 403 "forbidden" :=
  ⟨((pairing_forwards_authority ⟨201, "created", [("cert", "c")]⟩).1 (by decide)).1,
   ((pairing_forwards_authority ⟨403, "forbidden", []⟩).2 (by decide)).1⟩

/-- C1 counterexample: with host "h1" confirmed by the authority and a link
for "u1" already present, `register_with_hostname` propagates the uncaught
`FileExistsError` from `symlink_to` (surfaced by the framework as an internal
server error), not a structured 409 conflict response. -/
theorem duplicate_registration_not_conflict :
    register_with_hostname ⟨200, "", []⟩ ⟨[("u1", "h1")], [], [], [], []⟩ "u1" "h1"
      = Except.error RegisterError.fileExistsError ∧
    isConflictResponse
      (register_with_hostname ⟨200, "", []⟩ ⟨[("u1", "h1")], [], [], [], []⟩ "u1" "h1")
      = false := by
  constructor <;> rfl

/-- C1 (amended): when the named host exists but a link for the uuid already
exists, `register_with_hostname` fails with the uncaught `FileExistsError`
raised by `symlink_to` — it does not succeed and creates no second link — but
the duplicate is surfaced as that unhandled exception (an internal server
error at the HTTP layer), not as a structured conflict response. -/
theorem duplicate_registration_fails (resp : RestApiResponse) (fs : FS)
    (uuid host_name existing : String)
    (hok : host_exists resp = true)
    (hlink : fs.links.lookup uuid = some existing) :
    register_with_hostname resp fs uuid host_name
      = Except.error RegisterError.fileExistsError := by
  simp [register_with_hostname, hok, create_link, hlink]

theorem duplicate_registration_fails_witness :
    register_with_hostname ⟨200, "", []⟩ ⟨[("u2", "h2")], [], [], [], []⟩ "u2" "h3"
      = Except.error RegisterError.fileExistsError :=
  duplicate_registration_fails ⟨200, "", []⟩ ⟨[("u2", "h2")], [], [], [], []⟩
    "u2" "h3" "h2" (by decide) (by decide)

/-- C6: when the authority does not confirm the host's existence,
`register_with_hostname` returns a 404 error with detail
"Host <name> does not exist" and creates no link (the state is untouched);
when the authority confirms existence and no link exists for the uuid, it
creates the link and returns 204 No Content. -/
theorem register_with_hostname_spec (resp : RestApiResponse) (fs : FS)
    (uuid host_name : String) :
    (host_exists resp = false →
      register_with_hostname resp fs uuid host_name
        = Except.error (RegisterError.httpException 404
            ("Host " ++ host_name ++ " does not exist"))) ∧
    (host_exists resp = true → fs.links.lookup uuid = none →
      register_with_hostname resp fs uuid host_name
        = Except.ok ({ fs with links := (uuid, host_name) :: fs.links }, 204)) := by
  constructor
  · intro h
    simp [register_with_hostname, h]
  · intro h hnone
    simp [register_with_hostname, h, create_link, hnone]

theorem register_with_hostname_spec_witness :
    register_with_hostname ⟨404, "", []⟩ ⟨[], [], [], [], []⟩ "u1" "h1"
      = Except.error (RegisterError.httpException 404 "Host h1 does not exist") ∧
    register_with_hostname ⟨200, "", []⟩ ⟨[], [], [], [], []⟩ "u1" "h1"
      = Except.ok (⟨[("u1", "h1")], [], [], [], []⟩, 204) :=
  ⟨(register_with_hostname_spec ⟨404, "", []⟩ ⟨[], [], [], [], []⟩ "u1" "h1").1
      (by decide),
   (register_with_hostname_spec ⟨200, "", []⟩ ⟨[], [], [], [], []⟩ "u1" "h1").2
      (by decide) (by decide)⟩

/-- C8: after `create_link` succeeds for a uuid and host name, `get_hostname`
resolves that uuid to that host name; and for a uuid that has never been
linked, `get_hostname` returns `none` (absent) rather than raising — the
`FileNotFoundError` from `readlink` is caught inside `get_hostname`. -/
theorem create_link_then_get_hostname (fs : FS) (uuid host_name : String) :
    (∀ fs1, create_link fs uuid host_name = Except.ok fs1 →
      get_hostname fs1 uuid = some host_name) ∧
    (fs.links.lookup uuid = none → get_hostname fs uuid = none) := by
  constructor
  · intro fs1 h
    unfold create_link at h
    cases hl : fs.links.lookup uuid with
    | some v => rw [hl] at h; cases h
    | none =>
      rw [hl] at h
      cases h
      simp [get_hostname, List.lookup]
  · intro h
    simpa [get_hostname] using h

theorem create_link_then_get_hostname_witness :
    get_hostname ⟨[("u1", "h1")], [], [], [], []⟩ "u1" = some "h1" ∧
    get_hostname ⟨[("u2", "h2")], [], [], [], []⟩ "u9" = none :=
  ⟨(create_link_then_get_hostname ⟨[], [], [], [], []⟩ "u1" "h1").1
      ⟨[("u1", "h1")], [], [], [], []⟩ rfl,
   (create_link_then_get_hostname ⟨[("u2", "h2")], [], [], [], []⟩ "u9" "hx").2
      (by decide)⟩

/-- C3: for an identity linked to host `h` with a READY artifact, a
successful upload moves the artifact to `DISCOVERABLE/<h>.json` and it no
longer exists under READY; and the transition fires only then — an upload for
an unlinked identity, or one without a READY artifact, leaves both lifecycle
directories unchanged. -/
theorem ready_to_discoverable (fs : FS) (uuid payload h : String) :
    (get_hostname fs uuid = some h → uuid ∈ fs.ready → uuid ∈ fs.dirExists →
      (agent_data fs uuid payload false).1 = Except.ok "Agent data saved." ∧
      h ∈ (agent_data fs uuid payload false).2.discoverable ∧
      uuid ∉ (agent_data fs uuid payload false).2.ready) ∧
    (get_hostname fs uuid = none →
      (agent_data fs uuid payload false).2.ready = fs.ready ∧
      (agent_data fs uuid payload false).2.discoverable = fs.discoverable) ∧
    (uuid ∉ fs.ready →
      (agent_data fs uuid payload false).2.ready = fs.ready ∧
      (agent_data fs uuid payload false).2.discoverable = fs.discoverable) := by
  refine ⟨?_, ?_, ?_⟩
  · intro hlink hready hdir
    simp only [get_hostname] at hlink
    refine ⟨?_, ?_, ?_⟩ <;>
      simp [agent_data, get_hostname, hdir, hready, hlink, List.mem_filter,
        List.mem_insert_iff]
  · intro hlink
    simp only [get_hostname] at hlink
    by_cases hdir : uuid ∈ fs.dirExists <;>
      simp [agent_data, get_hostname, hdir, hlink]
  · intro hready
    by_cases hdir : uuid ∈ fs.dirExists <;>
      simp [agent_data, get_hostname, hdir, hready]

theorem ready_to_discoverable_witness :
    (agent_data ⟨[("u1", "h1")], ["u1"], [], ["u1"], []⟩ "u1" "p" false).1
      = Except.ok "Agent data saved." ∧
    "h1" ∈ (agent_data ⟨[("u1", "h1")], ["u1"], [], ["u1"], []⟩
      "u1" "p" false).2.discoverable ∧
    "u1" ∉ (agent_data ⟨[("u1", "h1")], ["u1"], [], ["u1"], []⟩
      "u1" "p" false).2.ready :=
  (ready_to_discoverable ⟨[("u1", "h1")], ["u1"], [], ["u1"], []⟩ "u1" "p" "h1").1
    (by decide) (by decide) (by decide)

/-- C5: a data upload for an identity with no existing output directory fails
with the 403 "Host is not registered" error and leaves the whole registry
state — in particular the payload files — untouched. -/
theorem upload_unregistered (fs : FS) (uuid payload : String) (race : Bool)
    (h : uuid ∉ fs.dirExists) :
    agent_data fs uuid payload race
      = (Except.error (403, "Host is not registered"), fs) := by
  simp [agent_data, h]

theorem upload_unregistered_witness :
    agent_data ⟨[], [], [], [], []⟩ "u1" "p" false
      = (Except.error (403, "Host is not registered"), ⟨[], [], [], [], []⟩) :=
  upload_unregistered ⟨[], [], [], [], []⟩ "u1" "p" false (by decide)

/-- C7: when the lifecycle-artifact promotion loses its race (the READY
artifact disappears between the existence check and the move, raising the
caught `FileNotFoundError`), the promotion changes nothing, yet the upload
itself still stores the payload and returns success — the promotion never
fails the surrounding upload. -/
theorem promotion_race_tolerated (fs : FS) (uuid payload : String)
    (hdir : uuid ∈ fs.dirExists) :
    (agent_data fs uuid payload true).1 = Except.ok "Agent data saved." ∧
    (agent_data fs uuid payload true).2.ready = fs.ready ∧
    (agent_data fs uuid payload true).2.discoverable = fs.discoverable ∧
    (agent_data fs uuid payload true).2.payloads
      = setPayload fs.payloads uuid payload := by
  by_cases hc : uuid ∈ fs.ready ∧ (fs.links.lookup uuid).isSome = true <;>
    simp [agent_data, get_hostname, hdir, hc]

theorem promotion_race_tolerated_witness :
    (agent_data ⟨[("u1", "h1")], ["u1"], [], ["u1"], []⟩ "u1" "p" true).1
      = Except.ok "Agent data saved." ∧
    (agent_data ⟨[("u1", "h1")], ["u1"], [], ["u1"], []⟩ "u1" "p" true).2.ready
      = ["u1"] ∧
    (agent_data ⟨[("u1", "h1")], ["u1"], [], ["u1"], []⟩
      "u1" "p" true).2.discoverable = [] ∧
    (agent_data ⟨[("u1", "h1")], ["u1"], [], ["u1"], []⟩ "u1" "p" true).2.payloads
      = setPayload [] "u1" "p" :=
  promotion_race_tolerated ⟨[("u1", "h1")], ["u1"], [], ["u1"], []⟩ "u1" "p"
    (by decide)

/-- C4: the upload payload is written completely to a freshly created (empty)
temporary file inside the destination directory, which is then renamed over
the fixed destination in one step; any interruption before the rename (after
zero, one or two completed steps) leaves the previously stored payload at the
destination unchanged, and the completed sequence replaces it with the new
payload. -/
theorem upload_atomic (s : UploadState) (p : String) :
    (∀ k, k ≤ 2 → (uploadAfter s p k).dest = s.dest) ∧
    (∀ s1, up_mkstemp s = some s1 →
      s.dirExists = true ∧ s1.temp = some "" ∧ s1.dest = s.dest) ∧
    (s.dirExists = true →
      uploadAfter s p 3 = { dirExists := true, dest := some p, temp := none }) := by
  refine ⟨?_, ?_, ?_⟩
  · intro k hk
    interval_cases k <;>
      by_cases hd : s.dirExists = true <;>
        simp [uploadAfter, up_mkstemp, up_write, hd]
  · intro s1 h1
    unfold up_mkstemp at h1
    by_cases hd : s.dirExists = true
    · rw [if_pos hd] at h1
      cases h1
      exact ⟨hd, rfl, rfl⟩
    · rw [if_neg hd] at h1
      cases h1
  · intro hd
    simp [uploadAfter, up_mkstemp, up_write, up_rename, hd]

theorem upload_atomic_witness :
    (uploadAfter ⟨true, some "old", none⟩ "new" 2).dest = some "old" ∧
    uploadAfter ⟨true, some "old", none⟩ "new" 3 = ⟨true, some "new", none⟩ :=
  ⟨(upload_atomic ⟨true, some "old", none⟩ "new").1 2 (by decide),
   (upload_atomic ⟨true, some "old", none⟩ "new").2.2 rfl⟩

end AgentReceiver
